import Mathlib

/-!
Verification development for the temporal-api library (src/index.ts,
src/duration.ts, src/relative.ts, src/utils.ts).

The TypeScript source is shallowly embedded as follows:

* JavaScript numbers are modelled by `JSNum`: either a finite value,
  represented exactly as a rational, or one of the non-finite values
  NaN, Infinity, -Infinity.  All numeric values that actually occur in
  the library (epoch milliseconds, calendar components, validated unit
  offsets) have magnitude below 2^53, where doubles are exact, so the
  rational model is faithful on them.
* Fallible code (the assertion helpers, the builder setters, fromDate)
  returns `Except String`, the thrown Error message being the payload.
* The external calendar engine (the @js-temporal/polyfill 0.4.x used by
  the library via its pinned dependency) is modelled by the proleptic
  Gregorian calendar functions below: serial-day/civil conversions,
  clamped calendar addition, and the DifferenceISODateTime and
  DifferenceISODate algorithms of the polyfill for largestUnit months and days.
-/

/- ------------------------------------------------------------------ -/
/- JavaScript number model                                            -/
/- ------------------------------------------------------------------ -/

/-- Model of a JavaScript number: a finite value (exact rational) or one
of the non-finite doubles. -/
inductive JSNum where
  | num : ℚ → JSNum
  | nan : JSNum
  | inf : JSNum
  | negInf : JSNum
deriving DecidableEq

/-- Largest safe integer of JavaScript, 2^53 - 1. -/
def maxSafeInteger : Int := 9007199254740991

/-- Model of Number.isFinite. -/
def JSNum.isFinite : JSNum → Bool
  | .num _ => true
  | _ => false

/-- Model of Number.isInteger: finite with zero fractional part. -/
def JSNum.isInteger : JSNum → Bool
  | .num q => q.den == 1
  | _ => false

/-- Model of Number.isSafeInteger: an integer of magnitude at most 2^53 - 1. -/
def JSNum.isSafeInteger : JSNum → Bool
  | .num q => q.den == 1 && q.num.natAbs ≤ 9007199254740991
  | _ => false

/-- Truncation of a rational toward zero, as Math.trunc does. -/
def jsTrunc (q : ℚ) : Int := q.num.sign * (q.num.natAbs / q.den)

/-- Model of Math.trunc on a JavaScript number (non-finite values are
returned unchanged, as in JavaScript). -/
def JSNum.truncJS : JSNum → JSNum
  | .num q => .num ((jsTrunc q : Int) : ℚ)
  | x => x

/-- Integer value of a validated JSNum (used only after a successful
assertSafeInt, where the value is a finite integer). -/
def JSNum.toIntVal : JSNum → Int
  | .num q => jsTrunc q
  | _ => 0

/-- Rational value of a validated JSNum (used only after a successful
assertFiniteNumber, where the value is finite). -/
def JSNum.toRat : JSNum → ℚ
  | .num q => q
  | _ => 0

/-- Embedding of utils.ts assertFiniteNumber: value must be finite and
its truncated integer part must be a safe integer. -/
def assertFiniteNumber (value : JSNum) (caller : String) : Except String Unit :=
  if value.isFinite = false then
    .error (caller ++ ": value must be a finite number")
  else if value.truncJS.isSafeInteger = false then
    .error (caller ++ ": absolute value exceeds safe range")
  else
    .ok ()

/-- Embedding of utils.ts assertSafeInt: value must be a finite, safe
integer with no fractional part. -/
def assertSafeInt (value : JSNum) (caller : String) : Except String Unit :=
  if value.isFinite = false then
    .error (caller ++ ": value must be a finite integer")
  else if value.isInteger = false then
    .error (caller ++ ": value must be an integer (no decimals)")
  else if value.isSafeInteger = false then
    .error (caller ++ ": value exceeds safe integer range")
  else
    .ok ()

/- ------------------------------------------------------------------ -/
/- Calendar engine model: proleptic Gregorian (ISO) calendar          -/
/- ------------------------------------------------------------------ -/

/-- Model of a Temporal.PlainDateTime restricted to millisecond
granularity (the library only ever constructs millisecond-granular
values).  All components are integers; canonical values have month in
1..12, day in 1..31 and time-of-day components in their usual ranges. -/
structure PlainDateTime where
  year : Int
  month : Int
  day : Int
  hour : Int
  minute : Int
  second : Int
  millisecond : Int
deriving DecidableEq

/-- Gregorian leap-year rule. -/
def isLeap (y : Int) : Bool := y % 4 == 0 && (y % 100 != 0 || y % 400 == 0)

/-- Number of days in a month of the Gregorian calendar. -/
def daysInMonth (y m : Int) : Int :=
  if m = 2 then (if isLeap y then 29 else 28)
  else if m = 4 ∨ m = 6 ∨ m = 9 ∨ m = 11 then 30 else 31

/-- Serial day number (days since 1970-01-01) of a civil date, by the
standard era decomposition of the Gregorian calendar.  Note that `/` and
`%` on Int are Euclidean (floor-like for the positive divisors used
here). -/
def daysFromCivil (y m d : Int) : Int :=
  let yA := if m ≤ 2 then y - 1 else y
  let era := yA / 400
  let yoe := yA - era * 400
  let mp := if 3 ≤ m then m - 3 else m + 9
  let doy := (153 * mp + 2) / 5 + d - 1
  let doe := yoe * 365 + yoe / 4 - yoe / 100 + doy
  era * 146097 + doe - 719468

/-- Length in days of March-based year `yoe` of a 400-year Gregorian
era (year `yoe` runs from 1 March of civil year `yoe` of the era and is
long exactly when civil year `yoe + 1` of the era is a leap year). -/
def yearLenE (yoe : Nat) : Nat :=
  if (yoe + 1) % 4 = 0 ∧ ((yoe + 1) % 100 ≠ 0 ∨ yoe + 1 = 400) then 366 else 365

/-- Cumulative number of days of a 400-year era strictly before
March-based year `yoe`. -/
def cumE (yoe : Nat) : Nat := 365 * yoe + yoe / 4 - yoe / 100

/-- Locate a day-of-era inside its March-based year by peeling whole
years; returns the year-of-era and the remaining day-of-year. -/
def peelYear (yoe doy : Nat) : Nat → Nat × Nat
  | 0 => (yoe, doy)
  | fuel + 1 =>
      if doy < yearLenE yoe then (yoe, doy)
      else peelYear (yoe + 1) (doy - yearLenE yoe) fuel

/-- Civil date (year, month, day) of a serial day number: inverse of
`daysFromCivil`. -/
def civilFromDays (z : Int) : Int × Int × Int :=
  let zA := z + 719468
  let era := zA / 146097
  let doe := (zA % 146097).toNat
  let p := peelYear 0 doe 400
  let mp := (5 * p.2 + 2) / 153
  let d := p.2 - (153 * mp + 2) / 5 + 1
  let m : Int := if mp < 10 then (mp : Int) + 3 else (mp : Int) - 9
  let y : Int := era * 400 + (p.1 : Int) + (if m ≤ 2 then 1 else 0)
  (y, m, (d : Int))

/-- Time-of-day of a PlainDateTime in milliseconds. -/
def todMs (dt : PlainDateTime) : Int :=
  dt.hour * 3600000 + dt.minute * 60000 + dt.second * 1000 + dt.millisecond

/-- Epoch milliseconds of a PlainDateTime reinterpreted as UTC
wall-clock time; models pdt.toZonedDateTime(UTC).toInstant()
.epochMilliseconds. -/
def pdtToMs (dt : PlainDateTime) : Int :=
  daysFromCivil dt.year dt.month dt.day * 86400000 + todMs dt

/-- UTC civil date-time of an epoch-millisecond instant; models
Temporal.Instant.fromEpochMilliseconds(ms).toZonedDateTimeISO(UTC)
.toPlainDateTime(). -/
def msToPdt (ms : Int) : PlainDateTime :=
  let z := ms / 86400000
  let tod := (ms % 86400000).toNat
  let c := civilFromDays z
  { year := c.1, month := c.2.1, day := c.2.2,
    hour := (tod / 3600000 : Nat), minute := (tod % 3600000 / 60000 : Nat),
    second := (tod % 60000 / 1000 : Nat), millisecond := (tod % 1000 : Nat) }

/-- Clamped year-month addition on a civil date: models the
AddISODate primitive of the polyfill, with a years/months duration and overflow constrain
(BalanceISOYearMonth followed by RegulateISODate).  `n` is a total
number of months. -/
def addYM (y m d n : Int) : Int × Int × Int :=
  let ym := y * 12 + (m - 1) + n
  let y2 := ym / 12
  let m2 := ym % 12 + 1
  (y2, m2, min d (daysInMonth y2 m2))

/-- Model of pdt.add with a pure months duration (overflow constrain). -/
def addMonthsDT (dt : PlainDateTime) (n : Int) : PlainDateTime :=
  let c := addYM dt.year dt.month dt.day n
  { dt with year := c.1, month := c.2.1, day := c.2.2 }

/-- Model of pdt.add with a pure years duration (overflow constrain):
the year changes and the day is clamped to the length of the target month. -/
def addYearsDT (dt : PlainDateTime) (n : Int) : PlainDateTime :=
  { dt with year := dt.year + n,
            day := min dt.day (daysInMonth (dt.year + n) dt.month) }

/-- Model of pdt.add with a pure days/hours/minutes/seconds/milliseconds
duration: such an addition is uniform on the epoch-millisecond line
(PlainDateTime days are uniformly 86400000 ms long). -/
def addMsDT (dt : PlainDateTime) (n : Int) : PlainDateTime :=
  msToPdt (pdtToMs dt + n)

/-- Date part of a PlainDateTime shifted by `k` days, time unchanged;
models BalanceISODate(y, m, d + k) of the polyfill on canonical dates. -/
def shiftDays (dt : PlainDateTime) (k : Int) : PlainDateTime :=
  let c := civilFromDays (daysFromCivil dt.year dt.month dt.day + k)
  { dt with year := c.1, month := c.2.1, day := c.2.2 }

/-- Model of CompareISODate of the polyfill: lexicographic comparison of
raw date components, returning -1, 0 or 1. -/
def compareISODate (y1 m1 d1 y2 m2 d2 : Int) : Int :=
  if y1 ≠ y2 then (if y1 < y2 then -1 else 1)
  else if m1 ≠ m2 then (if m1 < m2 then -1 else 1)
  else if d1 ≠ d2 then (if d1 < d2 then -1 else 1)
  else 0

/-- Sub-month part of a balanced duration. -/
structure TimeParts where
  days : Int
  hours : Int
  minutes : Int
  seconds : Int
  milliseconds : Int
deriving DecidableEq

/-- Model of BalanceDuration of the polyfill, up to days: a total
millisecond value decomposed into day/time components that all share the
sign of the total (division truncating toward zero). -/
def truncDecompose (total : Int) : TimeParts :=
  let s : Int := if total < 0 then -1 else 1
  let a := total.natAbs
  { days := s * (a / 86400000 : Nat),
    hours := s * (a % 86400000 / 3600000 : Nat),
    minutes := s * (a % 3600000 / 60000 : Nat),
    seconds := s * (a % 60000 / 1000 : Nat),
    milliseconds := s * (a % 1000 : Nat) }

/-- Day count between the intermediate date and the end date in the
DifferenceISODate of the polyfill (months branch): the two dates are in the
same or in adjacent months, giving the three source cases. -/
def ddmDays (sign y2 m2 d2 : Int) (mid : Int × Int × Int) : Int :=
  if mid.2.1 = m2 ∧ mid.1 = y2 then d2 - mid.2.2
  else if sign < 0 then -mid.2.2 - (daysInMonth y2 m2 - d2)
  else d2 + (daysInMonth mid.1 mid.2.1 - mid.2.2)

/-- Model of the polyfill 0.4.x DifferenceISODate with largestUnit
month: candidate whole years, then whole months, each corrected against
the clamped intermediate date, years folded into months at the end.
Returns (months, days). -/
def diffDateMonths (y1 m1 d1 y2 m2 d2 : Int) : Int × Int :=
  let sign := -(compareISODate y1 m1 d1 y2 m2 d2)
  if sign = 0 then (0, 0) else
  let years0 := y2 - y1
  let mid0 := addYM y1 m1 d1 (years0 * 12)
  let midSign0 := -(compareISODate mid0.1 mid0.2.1 mid0.2.2 y2 m2 d2)
  if midSign0 = 0 then (years0 * 12, 0) else
  let p1 :=
    if midSign0 ≠ sign then (years0 - sign, m2 - m1 + sign * 12)
    else (years0, m2 - m1)
  let mid1 := addYM y1 m1 d1 (p1.1 * 12 + p1.2)
  let midSign1 := -(compareISODate mid1.1 mid1.2.1 mid1.2.2 y2 m2 d2)
  if midSign1 = 0 then (p1.1 * 12 + p1.2, 0) else
  let p2 :=
    if midSign1 ≠ sign then
      (if p1.2 - sign = -sign then (p1.1 - sign, 11 * sign) else (p1.1, p1.2 - sign))
    else p1
  let mid2 := if midSign1 ≠ sign then addYM y1 m1 d1 (p2.1 * 12 + p2.2) else mid1
  (p2.1 * 12 + p2.2, ddmDays sign y2 m2 d2 mid2)

/-- Whole-duration difference of two PlainDateTimes. -/
structure DTDiff where
  years : Int
  months : Int
  days : Int
  hours : Int
  minutes : Int
  seconds : Int
  milliseconds : Int
deriving DecidableEq

/-- Sign of an integer, -1, 0 or 1; models DurationSign of the polyfill
on a single-component duration. -/
def intSign (x : Int) : Int := if x < 0 then -1 else if x = 0 then 0 else 1

/-- Time-of-day difference, its sign, the possibly day-adjusted start
date and the adjusted time value, shared by the two until variants;
models the first half of DifferenceISODateTime of the polyfill (the day
borrowed from the date part when time and date differences have
opposite signs). -/
def untilAdjust (a b : PlainDateTime) : PlainDateTime × Int :=
  let dt := todMs b - todMs a
  let timeSign := intSign dt
  let dateSign := compareISODate b.year b.month b.day a.year a.month a.day
  if dateSign = -timeSign then (shiftDays a (-timeSign), dt + 86400000 * (-timeSign))
  else (a, dt)

/-- Model of a.until(b, largestUnit months) of the polyfill:
DifferenceISODateTime with CalendarDateUntil at largestUnit month,
followed by BalanceDuration of the day/time part.  The years component
is always 0 (folded into months). -/
def untilMonths (a b : PlainDateTime) : DTDiff :=
  let adj := untilAdjust a b
  let aA := adj.1
  let dd := diffDateMonths aA.year aA.month aA.day b.year b.month b.day
  let t := truncDecompose (dd.2 * 86400000 + adj.2)
  { years := 0, months := dd.1, days := t.days, hours := t.hours,
    minutes := t.minutes, seconds := t.seconds, milliseconds := t.milliseconds }

/-- Model of a.until(b, largestUnit days) of the polyfill: the date
difference is the serial-day difference, rebalanced together with the
time part. -/
def untilDays (a b : PlainDateTime) : DTDiff :=
  let adj := untilAdjust a b
  let aA := adj.1
  let dd := daysFromCivil b.year b.month b.day - daysFromCivil aA.year aA.month aA.day
  let t := truncDecompose (dd * 86400000 + adj.2)
  { years := 0, months := 0, days := t.days, hours := t.hours,
    minutes := t.minutes, seconds := t.seconds, milliseconds := t.milliseconds }

/-- Model of the JavaScript ToInt32 conversion on an integral number. -/
def jsToInt32 (x : Int) : Int := (x + 2147483648) % 4294967296 - 2147483648

/-- Model of the bitwise-or non-zero test of monthsFraction:
diff.days OR diff.hours OR diff.minutes OR diff.seconds OR
diff.milliseconds, each operand converted by ToInt32. -/
def jsOrTest (diff : DTDiff) : Int :=
  Int.lor (Int.lor (Int.lor (Int.lor (jsToInt32 diff.days) (jsToInt32 diff.hours))
    (jsToInt32 diff.minutes)) (jsToInt32 diff.seconds)) (jsToInt32 diff.milliseconds)

/- ------------------------------------------------------------------ -/
/- Fixed-duration builder (duration.ts)                               -/
/- ------------------------------------------------------------------ -/

/-- Units of the fixed-duration builder. -/
inductive DUnit where
  | weeks | days | hours | minutes | seconds | milliseconds
deriving DecidableEq

/-- Unit name used in validation messages of the fixed builder. -/
def dunitName : DUnit → String
  | .weeks => "weeks"
  | .days => "days"
  | .hours => "hours"
  | .minutes => "minutes"
  | .seconds => "seconds"
  | .milliseconds => "milliseconds"

/-- Milliseconds per unit (the MS table of constants.ts). -/
def msPerUnit : DUnit → ℚ
  | .weeks => 604800000
  | .days => 86400000
  | .hours => 3600000
  | .minutes => 60000
  | .seconds => 1000
  | .milliseconds => 1

/-- Embedding of DurationBuilder: a single accumulated millisecond
total. -/
structure DurationBuilder where
  total : ℚ
deriving DecidableEq

/-- Fresh DurationBuilder with zero total. -/
def DurationBuilder.empty : DurationBuilder := ⟨0⟩

/-- Setter branch of the six overloaded unit methods of
DurationBuilder: validate with assertFiniteNumber under the unit name,
then add n times the conversion factor to the total (the in-place
mutation of the source is modelled by returning the updated record). -/
def DurationBuilder.applySetter (b : DurationBuilder) (u : DUnit) (v : JSNum) :
    Except String DurationBuilder := do
  _ ← assertFiniteNumber v (dunitName u)
  pure ⟨b.total + v.toRat * msPerUnit u⟩

/-- Getter branch of the six overloaded unit methods of
DurationBuilder (milliseconds returns the total directly, the others
divide by the conversion factor). -/
def DurationBuilder.getUnit (b : DurationBuilder) : DUnit → ℚ
  | .weeks => b.total / 604800000
  | .days => b.total / 86400000
  | .hours => b.total / 3600000
  | .minutes => b.total / 60000
  | .seconds => b.total / 1000
  | .milliseconds => b.total

/-- Embedding of the fixed-duration entry points weeks(n), days(n), ...:
construct a fresh builder and apply the unit setter once. -/
def durationEntry (u : DUnit) (n : JSNum) : Except String DurationBuilder :=
  DurationBuilder.empty.applySetter u n

/- ------------------------------------------------------------------ -/
/- Relative builder (relative.ts)                                     -/
/- ------------------------------------------------------------------ -/

/-- Offsets record of the relative builder: one signed integer per
calendar unit; there is no weeks field. -/
structure Offsets where
  years : Int
  months : Int
  days : Int
  hours : Int
  minutes : Int
  seconds : Int
  milliseconds : Int
deriving DecidableEq

/-- Offset field names, in the fixed application order of targetPlain. -/
inductive OffUnit where
  | years | months | days | hours | minutes | seconds | milliseconds
deriving DecidableEq

/-- Projection of an Offsets record at a field name. -/
def offField (o : Offsets) : OffUnit → Int
  | .years => o.years
  | .months => o.months
  | .days => o.days
  | .hours => o.hours
  | .minutes => o.minutes
  | .seconds => o.seconds
  | .milliseconds => o.milliseconds

/-- The all-zero Offsets record (the ZERO constant of relative.ts). -/
def Offsets.zero : Offsets := ⟨0, 0, 0, 0, 0, 0, 0⟩

/-- Embedding of RelativeBuilder: anchor civil date-time, anchor epoch
milliseconds and accumulated offsets. -/
structure RelativeBuilder where
  anchorPlain : PlainDateTime
  anchorMs : Int
  off : Offsets
deriving DecidableEq

/-- Constructor branch of RelativeBuilder for a Date anchor: the
anchor instant is reinterpreted as UTC civil time and its epoch
milliseconds kept verbatim; offsets default to zero. -/
def RelativeBuilder.ofDate (ms : Int) : RelativeBuilder :=
  { anchorPlain := msToPdt ms, anchorMs := ms, off := Offsets.zero }

/-- Constructor branch of RelativeBuilder for a PlainDateTime anchor
(used by plus): the anchor epoch milliseconds are recomputed from the
civil value by UTC reinterpretation. -/
def RelativeBuilder.ofPlain (p : PlainDateTime) (o : Offsets) : RelativeBuilder :=
  { anchorPlain := p, anchorMs := pdtToMs p, off := o }

/-- Units of the relative builder setters (weeks exists as a setter but
stores into the days offset). -/
inductive RUnit where
  | years | months | weeks | days | hours | minutes | seconds | milliseconds
deriving DecidableEq

/-- Unit name used in validation messages of the relative builder. -/
def runitName : RUnit → String
  | .years => "years"
  | .months => "months"
  | .weeks => "weeks"
  | .days => "days"
  | .hours => "hours"
  | .minutes => "minutes"
  | .seconds => "seconds"
  | .milliseconds => "milliseconds"

/-- Offsets update performed by the setter of each unit: add n to the
corresponding field; weeks adds n * 7 to the days field. -/
def Offsets.patch (o : Offsets) (u : RUnit) (n : Int) : Offsets :=
  match u with
  | .years => { o with years := o.years + n }
  | .months => { o with months := o.months + n }
  | .weeks => { o with days := o.days + n * 7 }
  | .days => { o with days := o.days + n }
  | .hours => { o with hours := o.hours + n }
  | .minutes => { o with minutes := o.minutes + n }
  | .seconds => { o with seconds := o.seconds + n }
  | .milliseconds => { o with milliseconds := o.milliseconds + n }

/-- Embedding of RelativeBuilder.plus specialised to the per-unit patch
each setter passes: a new builder with the same anchorPlain and the
patched offsets (anchorMs is recomputed by the constructor). -/
def RelativeBuilder.plusUnit (b : RelativeBuilder) (u : RUnit) (n : Int) :
    RelativeBuilder :=
  RelativeBuilder.ofPlain b.anchorPlain (b.off.patch u n)

/-- Setter branch of the eight overloaded unit methods of
RelativeBuilder: validate with assertSafeInt under the unit name, then
return the new builder produced by plus. -/
def RelativeBuilder.applySetter (b : RelativeBuilder) (u : RUnit) (v : JSNum) :
    Except String RelativeBuilder := do
  _ ← assertSafeInt v (runitName u)
  pure (b.plusUnit u v.toIntVal)

/-- Embedding of RelativeBuilder.targetPlain: starting from the anchor,
each offset is applied individually, in the fixed order years, months,
days, hours, minutes, seconds, milliseconds, skipping zero offsets
(the unrolled iterations of the for-loop over offsetOrder). -/
def RelativeBuilder.targetPlain (b : RelativeBuilder) : PlainDateTime :=
  let r0 := b.anchorPlain
  let r1 := if b.off.years ≠ 0 then addYearsDT r0 b.off.years else r0
  let r2 := if b.off.months ≠ 0 then addMonthsDT r1 b.off.months else r1
  let r3 := if b.off.days ≠ 0 then addMsDT r2 (b.off.days * 86400000) else r2
  let r4 := if b.off.hours ≠ 0 then addMsDT r3 (b.off.hours * 3600000) else r3
  let r5 := if b.off.minutes ≠ 0 then addMsDT r4 (b.off.minutes * 60000) else r4
  let r6 := if b.off.seconds ≠ 0 then addMsDT r5 (b.off.seconds * 1000) else r5
  if b.off.milliseconds ≠ 0 then addMsDT r6 b.off.milliseconds else r6

/-- Embedding of RelativeBuilder.deltaMs: epoch milliseconds of the
resolved target minus the anchor epoch milliseconds. -/
def RelativeBuilder.deltaMs (b : RelativeBuilder) : Int :=
  pdtToMs b.targetPlain - b.anchorMs

/-- Embedding of RelativeBuilder.monthsFraction. -/
def RelativeBuilder.monthsFraction (b : RelativeBuilder) : ℚ :=
  let target := b.targetPlain
  let diff := untilMonths b.anchorPlain target
  let whole := diff.years * 12 + diff.months
  if jsOrTest diff ≠ 0 then
    let anchorPlusWhole := addMonthsDT b.anchorPlain whole
    let rem := untilDays anchorPlusWhole target
    let dim : Int := daysInMonth anchorPlusWhole.year anchorPlusWhole.month
    let frac : ℚ :=
      (rem.days : ℚ) / (dim : ℚ) +
      ((rem.hours : ℚ) * 3600000) / ((dim : ℚ) * 86400000) +
      ((rem.minutes : ℚ) * 60000) / ((dim : ℚ) * 86400000) +
      ((rem.seconds : ℚ) * 1000) / ((dim : ℚ) * 86400000) +
      (rem.milliseconds : ℚ) / ((dim : ℚ) * 86400000)
    (whole : ℚ) + frac
  else (whole : ℚ)

/-- Embedding of RelativeBuilder.yearsFraction. -/
def RelativeBuilder.yearsFraction (b : RelativeBuilder) : ℚ :=
  b.monthsFraction / 12

/-- Getter branch of the milliseconds method: deltaMs. -/
def RelativeBuilder.millisecondsGet (b : RelativeBuilder) : Int := b.deltaMs

/-- Getter branch of the weeks method: deltaMs / MS.week. -/
def RelativeBuilder.weeksGet (b : RelativeBuilder) : ℚ := (b.deltaMs : ℚ) / 604800000

/-- Getter branch of the days method: deltaMs / MS.day. -/
def RelativeBuilder.daysGet (b : RelativeBuilder) : ℚ := (b.deltaMs : ℚ) / 86400000

/-- Embedding of RelativeBuilder.timestamp. -/
def RelativeBuilder.timestamp (b : RelativeBuilder) : Int := b.deltaMs + b.anchorMs

/- ------------------------------------------------------------------ -/
/- Entry point fromDate (index.ts)                                    -/
/- ------------------------------------------------------------------ -/

/-- Largest epoch-millisecond magnitude a JavaScript Date can hold
(8.64e15); beyond it the Date is invalid (its time value is NaN). -/
def maxDateMs : Int := 8640000000000000

/-- Input type of fromDate.  A Date object is modelled by its time
value: some t for a valid Date (so |t| is at most maxDateMs), none for
an invalid Date whose getTime() is NaN.  The other constructor stands
for every value that is not a Date, number or string. -/
inductive DateInput where
  | dateObj : Option Int → DateInput
  | numIn : JSNum → DateInput
  | strIn : String → DateInput
  | other : DateInput

/-- Embedding of fromDate.  The platform date parser for strings is an
external collaborator and is passed as an argument: it returns the
parsed epoch milliseconds of a valid instant, or none when parsing
yields an invalid date.  A numeric input is validated by assertSafeInt
and then subjected to the Date range check (new Date(t) is invalid
beyond maxDateMs, caught by the isNaN guard of the source). -/
def fromDate (parse : String → Option Int) : DateInput → Except String RelativeBuilder
  | .dateObj none => .error "fromDate: Invalid date input"
  | .dateObj (some t) => .ok (RelativeBuilder.ofDate t)
  | .numIn n => do
      _ ← assertSafeInt n "fromDate"
      if (n.toIntVal).natAbs > 8640000000000000 then
        .error "fromDate: Invalid date input"
      else
        .ok (RelativeBuilder.ofDate n.toIntVal)
  | .strIn s =>
      match parse s with
      | none => .error "fromDate: Invalid date input"
      | some t => .ok (RelativeBuilder.ofDate t)
  | .other => .error "fromDate: Input must be a Date object, timestamp (number), or ISO date string"

/-- A string parser that accepts nothing; used to instantiate theorems
whose statements do not depend on string parsing. -/
def nullParse : String → Option Int := fun _ => none

/- ------------------------------------------------------------------ -/
/- Specification-side definitions and auxiliary preditates            -/
/- ------------------------------------------------------------------ -/

/-- Calendar-add of a signed amount of one unit, as named by the
specification for offset resolution. -/
def applyCalendarAdd (dt : PlainDateTime) (u : OffUnit) (v : Int) : PlainDateTime :=
  match u with
  | .years => addYearsDT dt v
  | .months => addMonthsDT dt v
  | .days => addMsDT dt (v * 86400000)
  | .hours => addMsDT dt (v * 3600000)
  | .minutes => addMsDT dt (v * 60000)
  | .seconds => addMsDT dt (v * 1000)
  | .milliseconds => addMsDT dt v

/-- The fixed unit order of offset resolution. -/
def offUnitOrder : List OffUnit :=
  [.years, .months, .days, .hours, .minutes, .seconds, .milliseconds]

/-- Resolution of the target calendar value as worded by the
specification: starting from the anchor calendar value, fold over the
fixed unit order, applying each nonzero accumulated offset as its own
independent calendar-add and skipping zero offsets. -/
def resolveTargetCalendar (anchor : PlainDateTime) (o : Offsets) : PlainDateTime :=
  offUnitOrder.foldl
    (fun acc u => if offField o u ≠ 0 then applyCalendarAdd acc u (offField o u) else acc)
    anchor

/-- Fractional month count as worded by the specification: whole months
from the calendar difference with month as largest unit; if any
sub-month remainder component is nonzero, add the day-granular
remainder divided by the length of the month immediately following the
anchor plus the whole months. -/
def monthsSpec (b : RelativeBuilder) : ℚ :=
  let target := b.targetPlain
  let diff := untilMonths b.anchorPlain target
  let whole := diff.years * 12 + diff.months
  if diff.days ≠ 0 ∨ diff.hours ≠ 0 ∨ diff.minutes ≠ 0 ∨
     diff.seconds ≠ 0 ∨ diff.milliseconds ≠ 0 then
    let anchorPlusWhole := addMonthsDT b.anchorPlain whole
    let rem := untilDays anchorPlusWhole target
    let dim : Int := daysInMonth anchorPlusWhole.year anchorPlusWhole.month
    (whole : ℚ) +
      ((rem.days * 86400000 + rem.hours * 3600000 + rem.minutes * 60000 +
        rem.seconds * 1000 + rem.milliseconds : Int) : ℚ) / ((dim * 86400000 : Int) : ℚ)
  else (whole : ℚ)

/-- Application of a list of already-validated setter calls (unit and
integer argument) to a builder. -/
def applySettersInt (b : RelativeBuilder) (l : List (RUnit × Int)) : RelativeBuilder :=
  l.foldl (fun acc p => acc.plusUnit p.1 p.2) b

/-- Application of a list of raw setter calls, with validation, to a
builder; fails with the first validation error. -/
def applySettersChecked (b : RelativeBuilder) :
    List (RUnit × JSNum) → Except String RelativeBuilder
  | [] => pure b
  | p :: rest => do
      let b2 ← b.applySetter p.1 p.2
      applySettersChecked b2 rest

/-- Offsets field a setter of a given unit stores into (weeks stores
into days). -/
def targetField : RUnit → OffUnit
  | .years => .years
  | .months => .months
  | .weeks => .days
  | .days => .days
  | .hours => .hours
  | .minutes => .minutes
  | .seconds => .seconds
  | .milliseconds => .milliseconds

/-- Contribution a setter call adds to its target field (weeks
contributes sevenfold). -/
def contribOf : RUnit → Int → Int
  | .weeks, n => n * 7
  | _, n => n

/-- A builder is well formed when its anchor calendar value is the UTC
reinterpretation of its anchor epoch milliseconds; every builder
reachable through the public API is. -/
def RelativeBuilder.WellFormed (b : RelativeBuilder) : Prop :=
  b.anchorPlain = msToPdt b.anchorMs

deriving instance DecidableEq for Except

/-- Decidability of well-formedness, by unfolding to the underlying
equality of records. -/
instance (b : RelativeBuilder) : Decidable b.WellFormed :=
  inferInstanceAs (Decidable (b.anchorPlain = msToPdt b.anchorMs))

/-- Component bounds of a civil date-time as produced or preserved by
the calendar engine: day in 1..31 and time-of-day components in range. -/
def ValidDT (dt : PlainDateTime) : Prop :=
  1 ≤ dt.day ∧ dt.day ≤ 31 ∧
  0 ≤ dt.hour ∧ dt.hour ≤ 23 ∧
  0 ≤ dt.minute ∧ dt.minute ≤ 59 ∧
  0 ≤ dt.second ∧ dt.second ≤ 59 ∧
  0 ≤ dt.millisecond ∧ dt.millisecond ≤ 999

/- ------------------------------------------------------------------ -/
/- Calendar round-trip lemmas                                         -/
/- ------------------------------------------------------------------ -/

theorem yearLenE_le (yoe : Nat) : yearLenE yoe ≤ 366 := by
  unfold yearLenE; split <;> omega

theorem cumE_succ (yoe : Nat) (h : yoe ≤ 398) :
    cumE (yoe + 1) = cumE yoe + yearLenE yoe := by
  unfold cumE yearLenE; split <;> omega

theorem peelYear_spec (fuel : Nat) : ∀ yoe doy : Nat, yoe + fuel = 400 → yoe ≤ 399 →
    cumE yoe + doy < 146097 →
    cumE (peelYear yoe doy fuel).1 + (peelYear yoe doy fuel).2 = cumE yoe + doy ∧
    (peelYear yoe doy fuel).2 < yearLenE (peelYear yoe doy fuel).1 ∧
    (peelYear yoe doy fuel).1 ≤ 399 := by
  induction fuel with
  | zero => intro yoe doy h1 h2 _; exact absurd h1 (by omega)
  | succ fuel ih =>
      intro yoe doy h1 h2 h3
      rw [peelYear]
      split
      · exact ⟨rfl, by assumption, h2⟩
      · rename_i hge
        have hy398 : yoe ≤ 398 := by
          rcases Nat.lt_or_ge yoe 399 with h | h
          · omega
          · have hx : yoe = 399 := by omega
            subst hx
            have e1 : cumE 399 = 145731 := by decide
            have e2 : yearLenE 399 = 366 := by decide
            omega
        have hsucc := cumE_succ yoe hy398
        obtain ⟨ihA, ihB, ihC⟩ :=
          ih (yoe + 1) (doy - yearLenE yoe) (by omega) (by omega) (by omega)
        exact ⟨by omega, ihB, ihC⟩

theorem daysFromCivil_civilFromDays (z : Int) :
    daysFromCivil (civilFromDays z).1 (civilFromDays z).2.1 (civilFromDays z).2.2 = z := by
  have hnn : (0:Int) ≤ (z + 719468) % 146097 := Int.emod_nonneg _ (by norm_num)
  have hlt : (z + 719468) % 146097 < 146097 := Int.emod_lt_of_pos _ (by norm_num)
  have hdiv : 146097 * ((z + 719468) / 146097) + (z + 719468) % 146097 = z + 719468 :=
    Int.ediv_add_emod _ _
  obtain ⟨hp1, hp2, hp3⟩ :=
    peelYear_spec 400 0 ((z + 719468) % 146097).toNat rfl (by omega)
      (by simp only [cumE]; omega)
  have hylen := yearLenE_le (peelYear 0 ((z + 719468) % 146097).toNat 400).1
  have hdoy : (peelYear 0 ((z + 719468) % 146097).toNat 400).2 ≤ 365 := by omega
  set p := peelYear 0 ((z + 719468) % 146097).toNat 400 with hp
  set mp := (5 * p.2 + 2) / 153 with hmp
  have hmp11 : mp ≤ 11 := by omega
  have hmple : (153 * mp + 2) / 5 ≤ p.2 := by omega
  set dN := p.2 - (153 * mp + 2) / 5 + 1 with hdN
  simp only [cumE] at hp1
  have hcfd : civilFromDays z =
      ((z + 719468) / 146097 * 400 + (p.1 : Int) +
         (if (if mp < 10 then (mp : Int) + 3 else (mp : Int) - 9) ≤ 2 then 1 else 0),
       (if mp < 10 then (mp : Int) + 3 else (mp : Int) - 9),
       (dN : Int)) := rfl
  rcases Nat.lt_or_ge mp 10 with hc | hc
  · have hm3 : ¬ ((mp : Int) + 3 ≤ 2) := by omega
    have hcfd1 : civilFromDays z =
        ((z + 719468) / 146097 * 400 + (p.1 : Int), (mp : Int) + 3, (dN : Int)) := by
      rw [hcfd, if_pos hc, if_neg hm3]; norm_num
    rw [hcfd1]
    unfold daysFromCivil
    dsimp only
    rw [if_neg hm3, if_pos (by omega : (3:Int) ≤ (mp : Int) + 3)]
    generalize hA : (z + 719468) / 146097 = A at hdiv ⊢
    have hg : (A * 400 + (p.1 : Int)) / 400 = A := by omega
    rw [hg]
    have hyoe : A * 400 + (p.1 : Int) - A * 400 = (p.1 : Int) := by ring
    rw [hyoe]
    omega
  · have hm3 : ((mp : Int) - 9 ≤ 2) := by omega
    have hcfd1 : civilFromDays z =
        ((z + 719468) / 146097 * 400 + (p.1 : Int) + 1, (mp : Int) - 9, (dN : Int)) := by
      rw [hcfd, if_neg (by omega : ¬ mp < 10), if_pos hm3]
    rw [hcfd1]
    unfold daysFromCivil
    dsimp only
    rw [if_pos hm3, if_neg (by omega : ¬ (3:Int) ≤ (mp : Int) - 9)]
    generalize hA : (z + 719468) / 146097 = A at hdiv ⊢
    have h0 : A * 400 + (p.1 : Int) + 1 - 1 = A * 400 + (p.1 : Int) := by ring
    rw [h0]
    have hg : (A * 400 + (p.1 : Int)) / 400 = A := by omega
    rw [hg]
    have hyoe : A * 400 + (p.1 : Int) - A * 400 = (p.1 : Int) := by ring
    rw [hyoe]
    omega

theorem pdtToMs_msToPdt (ms : Int) : pdtToMs (msToPdt ms) = ms := by
  unfold pdtToMs msToPdt todMs
  have h1 := daysFromCivil_civilFromDays (ms / 86400000)
  have h2 : (0:Int) ≤ ms % 86400000 := Int.emod_nonneg _ (by norm_num)
  have h3 : ms % 86400000 < 86400000 := Int.emod_lt_of_pos _ (by norm_num)
  have h4 : 86400000 * (ms / 86400000) + ms % 86400000 = ms := Int.ediv_add_emod _ _
  dsimp only
  rw [h1]
  omega

/- ------------------------------------------------------------------ -/
/- Component bound lemmas                                             -/
/- ------------------------------------------------------------------ -/

theorem civilFromDays_day_bounds (z : Int) :
    1 ≤ (civilFromDays z).2.2 ∧ (civilFromDays z).2.2 ≤ 31 := by
  have hnn : (0:Int) ≤ (z + 719468) % 146097 := Int.emod_nonneg _ (by norm_num)
  have hlt : (z + 719468) % 146097 < 146097 := Int.emod_lt_of_pos _ (by norm_num)
  obtain ⟨hp1, hp2, hp3⟩ :=
    peelYear_spec 400 0 ((z + 719468) % 146097).toNat rfl (by omega)
      (by simp only [cumE]; omega)
  have hylen := yearLenE_le (peelYear 0 ((z + 719468) % 146097).toNat 400).1
  have hdoy : (peelYear 0 ((z + 719468) % 146097).toNat 400).2 ≤ 365 := by omega
  set p := peelYear 0 ((z + 719468) % 146097).toNat 400 with hp
  have hday : (civilFromDays z).2.2 =
      ((p.2 - (153 * ((5 * p.2 + 2) / 153) + 2) / 5 + 1 : Nat) : Int) := rfl
  rw [hday]
  omega

theorem validDT_msToPdt (ms : Int) : ValidDT (msToPdt ms) := by
  obtain ⟨h1, h2⟩ := civilFromDays_day_bounds (ms / 86400000)
  have hnn : (0:Int) ≤ ms % 86400000 := Int.emod_nonneg _ (by norm_num)
  have hlt : ms % 86400000 < 86400000 := Int.emod_lt_of_pos _ (by norm_num)
  unfold ValidDT msToPdt
  dsimp only
  refine ⟨h1, h2, ?_, ?_, ?_, ?_, ?_, ?_, ?_, ?_⟩ <;> omega

theorem daysInMonth_bounds (y m : Int) :
    28 ≤ daysInMonth y m ∧ daysInMonth y m ≤ 31 := by
  unfold daysInMonth
  split_ifs <;> norm_num

theorem addYM_day_bounds (y m d n : Int) (h1 : 1 ≤ d) :
    1 ≤ (addYM y m d n).2.2 ∧ (addYM y m d n).2.2 ≤ 31 := by
  unfold addYM
  dsimp only
  obtain ⟨hd1, hd2⟩ := daysInMonth_bounds ((y * 12 + (m - 1) + n) / 12)
    ((y * 12 + (m - 1) + n) % 12 + 1)
  omega

theorem validDT_addMonthsDT (dt : PlainDateTime) (n : Int) (h : ValidDT dt) :
    ValidDT (addMonthsDT dt n) := by
  obtain ⟨ha, hb⟩ := addYM_day_bounds dt.year dt.month dt.day n h.1
  unfold ValidDT addMonthsDT at *
  dsimp only
  exact ⟨ha, hb, h.2.2.1, h.2.2.2.1, h.2.2.2.2.1, h.2.2.2.2.2.1,
    h.2.2.2.2.2.2.1, h.2.2.2.2.2.2.2.1, h.2.2.2.2.2.2.2.2.1, h.2.2.2.2.2.2.2.2.2⟩

theorem validDT_addYearsDT (dt : PlainDateTime) (n : Int) (h : ValidDT dt) :
    ValidDT (addYearsDT dt n) := by
  obtain ⟨hd1, hd2⟩ := daysInMonth_bounds (dt.year + n) dt.month
  unfold ValidDT addYearsDT at *
  dsimp only
  refine ⟨by omega, by omega, h.2.2.1, h.2.2.2.1, h.2.2.2.2.1, h.2.2.2.2.2.1,
    h.2.2.2.2.2.2.1, h.2.2.2.2.2.2.2.1, h.2.2.2.2.2.2.2.2.1, h.2.2.2.2.2.2.2.2.2⟩

theorem validDT_addMsDT (dt : PlainDateTime) (n : Int) : ValidDT (addMsDT dt n) :=
  validDT_msToPdt _

theorem validDT_applyCalendarAdd (dt : PlainDateTime) (u : OffUnit) (v : Int)
    (h : ValidDT dt) : ValidDT (applyCalendarAdd dt u v) := by
  cases u
  case years => exact validDT_addYearsDT dt v h
  case months => exact validDT_addMonthsDT dt v h
  all_goals exact validDT_msToPdt _

theorem targetPlain_eq_resolve (b : RelativeBuilder) :
    b.targetPlain = resolveTargetCalendar b.anchorPlain b.off := rfl

theorem validDT_resolve (anchor : PlainDateTime) (o : Offsets) (h : ValidDT anchor) :
    ValidDT (resolveTargetCalendar anchor o) := by
  have step : ∀ (l : List OffUnit) (acc : PlainDateTime), ValidDT acc →
      ValidDT (l.foldl
        (fun acc u => if offField o u ≠ 0 then applyCalendarAdd acc u (offField o u) else acc)
        acc) := by
    intro l
    induction l with
    | nil => intro acc hacc; exact hacc
    | cons u rest ih =>
        intro acc hacc
        simp only [List.foldl_cons]
        apply ih
        split
        · exact validDT_applyCalendarAdd _ _ _ hacc
        · exact hacc
  exact step offUnitOrder anchor h

theorem validDT_targetPlain (b : RelativeBuilder) (h : ValidDT b.anchorPlain) :
    ValidDT b.targetPlain := by
  rw [targetPlain_eq_resolve]
  exact validDT_resolve _ _ h

theorem validDT_shiftDays (dt : PlainDateTime) (k : Int) (h : ValidDT dt) :
    ValidDT (shiftDays dt k) := by
  obtain ⟨ha, hb⟩ :=
    civilFromDays_day_bounds (daysFromCivil dt.year dt.month dt.day + k)
  unfold ValidDT shiftDays at *
  dsimp only
  exact ⟨ha, hb, h.2.2.1, h.2.2.2.1, h.2.2.2.2.1, h.2.2.2.2.2.1,
    h.2.2.2.2.2.2.1, h.2.2.2.2.2.2.2.1, h.2.2.2.2.2.2.2.2.1, h.2.2.2.2.2.2.2.2.2⟩

theorem truncDecompose_small (x : Int) :
    0 ≤ (truncDecompose x).hours.natAbs ∧ (truncDecompose x).hours.natAbs ≤ 23 ∧
    (truncDecompose x).minutes.natAbs ≤ 59 ∧
    (truncDecompose x).seconds.natAbs ≤ 59 ∧
    (truncDecompose x).milliseconds.natAbs ≤ 999 := by
  unfold truncDecompose
  dsimp only
  split_ifs <;> refine ⟨by omega, ?_, ?_, ?_, ?_⟩ <;>
    simp only [Int.natAbs_mul, Int.natAbs_neg, Int.natAbs_one, one_mul,
      Int.natAbs_ofNat] <;> omega

theorem truncDecompose_days_le (x : Int) (B : Nat) (h : x.natAbs ≤ B * 86400000) :
    (truncDecompose x).days.natAbs ≤ B := by
  unfold truncDecompose
  dsimp only
  split_ifs <;>
    simp only [Int.natAbs_mul, Int.natAbs_neg, Int.natAbs_one, one_mul,
      Int.natAbs_ofNat] <;> omega

theorem todMs_bounds (dt : PlainDateTime) (h : ValidDT dt) :
    0 ≤ todMs dt ∧ todMs dt < 86400000 := by
  unfold ValidDT at h
  unfold todMs
  omega

theorem untilAdjust_bounds (a b : PlainDateTime) (ha : ValidDT a) (hb : ValidDT b) :
    1 ≤ (untilAdjust a b).1.day ∧ (untilAdjust a b).1.day ≤ 31 ∧
    (untilAdjust a b).2.natAbs ≤ 172799999 := by
  obtain ⟨ht1, ht2⟩ := todMs_bounds a ha
  obtain ⟨ht3, ht4⟩ := todMs_bounds b hb
  have hsign : intSign (todMs b - todMs a) = -1 ∨ intSign (todMs b - todMs a) = 0 ∨
      intSign (todMs b - todMs a) = 1 := by
    unfold intSign; split_ifs <;> simp
  unfold untilAdjust
  dsimp only
  split
  · obtain ⟨hs1, hs2⟩ :=
      civilFromDays_day_bounds (daysFromCivil a.year a.month a.day +
        -intSign (todMs b - todMs a))
    refine ⟨hs1, hs2, ?_⟩
    rcases hsign with h | h | h <;> rw [h] <;> omega
  · refine ⟨ha.1, ha.2.1, by omega⟩

theorem ddmDays_bound (sign y2 m2 d2 : Int) (mid : Int × Int × Int)
    (hd2 : 1 ≤ d2) (hd2b : d2 ≤ 31) (hm1 : 1 ≤ mid.2.2) (hm2 : mid.2.2 ≤ 31) :
    (ddmDays sign y2 m2 d2 mid).natAbs ≤ 62 := by
  obtain ⟨ha1, ha2⟩ := daysInMonth_bounds y2 m2
  obtain ⟨hb1, hb2⟩ := daysInMonth_bounds mid.1 mid.2.1
  unfold ddmDays
  split_ifs <;> omega

theorem diffDateMonths_days_bound (y1 m1 d1 y2 m2 d2 : Int)
    (hd1 : 1 ≤ d1) (hd2 : 1 ≤ d2) (hd2b : d2 ≤ 31) :
    (diffDateMonths y1 m1 d1 y2 m2 d2).2.natAbs ≤ 62 := by
  unfold diffDateMonths
  dsimp only
  split_ifs <;>
    first
      | (refine ddmDays_bound _ _ _ _ _ hd2 hd2b ?_ ?_ <;>
          first
            | exact (addYM_day_bounds _ _ _ _ hd1).1
            | exact (addYM_day_bounds _ _ _ _ hd1).2)
      | norm_num

theorem untilMonths_bounds (a b : PlainDateTime) (ha : ValidDT a) (hb : ValidDT b) :
    (untilMonths a b).days.natAbs ≤ 64 ∧
    (untilMonths a b).hours.natAbs ≤ 23 ∧
    (untilMonths a b).minutes.natAbs ≤ 59 ∧
    (untilMonths a b).seconds.natAbs ≤ 59 ∧
    (untilMonths a b).milliseconds.natAbs ≤ 999 := by
  obtain ⟨hA1, hA2, hA3⟩ := untilAdjust_bounds a b ha hb
  have hdd := diffDateMonths_days_bound (untilAdjust a b).1.year
    (untilAdjust a b).1.month (untilAdjust a b).1.day b.year b.month b.day
    hA1 hb.1 hb.2.1
  have htot : ((diffDateMonths (untilAdjust a b).1.year (untilAdjust a b).1.month
      (untilAdjust a b).1.day b.year b.month b.day).2 * 86400000 +
      (untilAdjust a b).2).natAbs ≤ 64 * 86400000 := by omega
  have hdays := truncDecompose_days_le _ 64 htot
  have hsmall := truncDecompose_small ((diffDateMonths (untilAdjust a b).1.year
      (untilAdjust a b).1.month (untilAdjust a b).1.day b.year b.month
      b.day).2 * 86400000 + (untilAdjust a b).2)
  unfold untilMonths
  dsimp only
  exact ⟨hdays, hsmall.2.1, hsmall.2.2.1, hsmall.2.2.2.1, hsmall.2.2.2.2⟩

/- ------------------------------------------------------------------ -/
/- Bitwise-or bridge                                                  -/
/- ------------------------------------------------------------------ -/

theorem natLor_eq_zero_iff (m n : Nat) : m ||| n = 0 ↔ m = 0 ∧ n = 0 := by
  constructor
  · intro h
    constructor <;> apply Nat.eq_of_testBit_eq <;> intro i <;>
      have hh := congrArg (fun x => x.testBit i) h <;>
      simp only [Nat.testBit_or, Nat.zero_testBit, Bool.or_eq_false_iff] at hh
    · simp [hh.1]
    · simp [hh.2]
  · rintro ⟨rfl, rfl⟩; rfl

theorem intLor_eq_zero_iff (x y : Int) : Int.lor x y = 0 ↔ x = 0 ∧ y = 0 := by
  constructor
  · intro h
    cases x with
    | ofNat m =>
        cases y with
        | ofNat n =>
            have h2 : Int.ofNat (m ||| n) = 0 := h
            have h3 : m ||| n = 0 := by simpa using h2
            obtain ⟨hm, hn⟩ := (natLor_eq_zero_iff m n).mp h3
            exact ⟨by simp [hm], by simp [hn]⟩
        | negSucc n =>
            have h2 : Int.negSucc (Nat.ldiff n m) = 0 := h
            rw [Int.negSucc_eq] at h2
            exact absurd h2 (by omega)
    | negSucc m =>
        cases y with
        | ofNat n =>
            have h2 : Int.negSucc (Nat.ldiff m n) = 0 := h
            rw [Int.negSucc_eq] at h2
            exact absurd h2 (by omega)
        | negSucc n =>
            have h2 : Int.negSucc (m &&& n) = 0 := h
            rw [Int.negSucc_eq] at h2
            exact absurd h2 (by omega)
  · rintro ⟨rfl, rfl⟩; rfl

theorem jsToInt32_id (x : Int) (h : x.natAbs ≤ 2147483647) : jsToInt32 x = x := by
  unfold jsToInt32
  omega

theorem jsOrTest_zero_iff (diff : DTDiff)
    (h1 : diff.days.natAbs ≤ 2147483647) (h2 : diff.hours.natAbs ≤ 2147483647)
    (h3 : diff.minutes.natAbs ≤ 2147483647) (h4 : diff.seconds.natAbs ≤ 2147483647)
    (h5 : diff.milliseconds.natAbs ≤ 2147483647) :
    jsOrTest diff = 0 ↔
      diff.days = 0 ∧ diff.hours = 0 ∧ diff.minutes = 0 ∧
      diff.seconds = 0 ∧ diff.milliseconds = 0 := by
  unfold jsOrTest
  rw [jsToInt32_id _ h1, jsToInt32_id _ h2, jsToInt32_id _ h3,
    jsToInt32_id _ h4, jsToInt32_id _ h5]
  simp only [intLor_eq_zero_iff]
  tauto

/-- Claim C2: for every well-formed RelativeDateBuilder the months()
getter returns the fractional month count described by the
specification: whole months from the largest-unit-month calendar
difference, plus, when any sub-month remainder component is nonzero,
the day-granular remainder divided by the number of days in the month
immediately following the anchor plus the whole months. -/
theorem C2_months_fraction_follows_spec (b : RelativeBuilder) (h : b.WellFormed) :
    b.monthsFraction = monthsSpec b := by
  have hav : ValidDT b.anchorPlain := by rw [h]; exact validDT_msToPdt _
  have htv : ValidDT b.targetPlain := validDT_targetPlain b hav
  obtain ⟨b1, b2, b3, b4, b5⟩ := untilMonths_bounds b.anchorPlain b.targetPlain hav htv
  have hz := jsOrTest_zero_iff (untilMonths b.anchorPlain b.targetPlain)
    (by omega) (by omega) (by omega) (by omega) (by omega)
  unfold RelativeBuilder.monthsFraction monthsSpec
  dsimp only
  by_cases hc : (untilMonths b.anchorPlain b.targetPlain).days ≠ 0 ∨
      (untilMonths b.anchorPlain b.targetPlain).hours ≠ 0 ∨
      (untilMonths b.anchorPlain b.targetPlain).minutes ≠ 0 ∨
      (untilMonths b.anchorPlain b.targetPlain).seconds ≠ 0 ∨
      (untilMonths b.anchorPlain b.targetPlain).milliseconds ≠ 0
  · have hor : jsOrTest (untilMonths b.anchorPlain b.targetPlain) ≠ 0 := by
      intro h0
      obtain ⟨z1, z2, z3, z4, z5⟩ := hz.mp h0
      tauto
    rw [if_pos hor, if_pos hc]
    have hdim := daysInMonth_bounds
      (addMonthsDT b.anchorPlain
        ((untilMonths b.anchorPlain b.targetPlain).years * 12 +
          (untilMonths b.anchorPlain b.targetPlain).months)).year
      (addMonthsDT b.anchorPlain
        ((untilMonths b.anchorPlain b.targetPlain).years * 12 +
          (untilMonths b.anchorPlain b.targetPlain).months)).month
    have hdimQ : ((daysInMonth
        (addMonthsDT b.anchorPlain
          ((untilMonths b.anchorPlain b.targetPlain).years * 12 +
            (untilMonths b.anchorPlain b.targetPlain).months)).year
        (addMonthsDT b.anchorPlain
          ((untilMonths b.anchorPlain b.targetPlain).years * 12 +
            (untilMonths b.anchorPlain b.targetPlain).months)).month : Int) : ℚ) ≠ 0 := by
      rw [Int.cast_ne_zero]
      omega
    push_cast
    field_simp
    ring
  · have hor : ¬ (jsOrTest (untilMonths b.anchorPlain b.targetPlain) ≠ 0) := by
      push_neg at hc ⊢
      exact hz.mpr ⟨hc.1, hc.2.1, hc.2.2.1, hc.2.2.2.1, hc.2.2.2.2⟩
    rw [if_neg hor, if_neg hc]

/- ------------------------------------------------------------------ -/
/- Setter characterisation and frame lemmas                           -/
/- ------------------------------------------------------------------ -/

theorem jsTrunc_int (q : ℚ) (h : q.den = 1) : jsTrunc q = q.num := by
  unfold jsTrunc
  rw [h]
  norm_num [Int.sign_mul_abs]

theorem applySetter_ok (b : RelativeBuilder) (u : RUnit) (v : JSNum)
    (b2 : RelativeBuilder) (hok : b.applySetter u v = .ok b2) :
    v.isSafeInteger = true ∧ b2 = b.plusUnit u v.toIntVal := by
  unfold RelativeBuilder.applySetter at hok
  cases hval : assertSafeInt v (runitName u) with
  | error e =>
      rw [hval] at hok
      exact absurd hok (by simp [Bind.bind, Except.bind])
  | ok _ =>
      rw [hval] at hok
      simp only [Bind.bind, Except.bind, pure, Except.pure, Except.ok.injEq] at hok
      refine ⟨?_, hok.symm⟩
      unfold assertSafeInt at hval
      split_ifs at hval with h1 h2 h3
      simpa using h3

theorem toIntVal_natAbs_le (v : JSNum) (h : v.isSafeInteger = true) :
    v.toIntVal.natAbs ≤ 9007199254740991 := by
  cases v with
  | num q =>
      simp only [JSNum.isSafeInteger, Bool.and_eq_true, beq_iff_eq,
        decide_eq_true_eq] at h
      show (jsTrunc q).natAbs ≤ 9007199254740991
      rw [jsTrunc_int q h.1]
      exact h.2
  | nan => simp [JSNum.isSafeInteger] at h
  | inf => simp [JSNum.isSafeInteger] at h
  | negInf => simp [JSNum.isSafeInteger] at h

theorem offField_patch (o : Offsets) (u : RUnit) (n : Int) (f : OffUnit) :
    offField (o.patch u n) f =
      offField o f + (if f = targetField u then contribOf u n else 0) := by
  cases u <;> cases f <;> simp [Offsets.patch, offField, targetField, contribOf]

theorem plusUnit_comm (b : RelativeBuilder) (p q : RUnit × Int) :
    (b.plusUnit p.1 p.2).plusUnit q.1 q.2 = (b.plusUnit q.1 q.2).plusUnit p.1 p.2 := by
  unfold RelativeBuilder.plusUnit RelativeBuilder.ofPlain
  dsimp only
  have hoff : (b.off.patch p.1 p.2).patch q.1 q.2 = (b.off.patch q.1 q.2).patch p.1 p.2 := by
    cases hp : p.1 <;> cases hq : q.1 <;>
      simp [Offsets.patch] <;> omega
  rw [hoff]

theorem ofDate_deltaMs (ms : Int) : (RelativeBuilder.ofDate ms).deltaMs = 0 := by
  unfold RelativeBuilder.deltaMs RelativeBuilder.ofDate RelativeBuilder.targetPlain
  dsimp only
  norm_num [Offsets.zero]
  rw [pdtToMs_msToPdt]
  ring

/- ------------------------------------------------------------------ -/
/- Claim theorems                                                     -/
/- ------------------------------------------------------------------ -/

/-- Claim C1: resolution of the target calendar value starts from the
anchor and applies each accumulated nonzero per-unit offset as its own
calendar-add in the fixed order years, months, days, hours, minutes,
seconds, milliseconds, skipping zero offsets (second conjunct, equating
the code path targetPlain with the resolution described by the
specification), and the outcome does not depend on the order of the
unit-setter calls that accumulated the offsets (first conjunct). -/
theorem C1_fixed_order_resolution :
    (∀ (b : RelativeBuilder) (l1 l2 : List (RUnit × Int)), l1.Perm l2 →
       applySettersInt b l1 = applySettersInt b l2) ∧
    ∀ b : RelativeBuilder,
      b.targetPlain = resolveTargetCalendar b.anchorPlain b.off := by
  constructor
  · intro b l1 l2 hperm
    unfold applySettersInt
    haveI : RightCommutative
        (fun (acc : RelativeBuilder) (p : RUnit × Int) => acc.plusUnit p.1 p.2) :=
      ⟨fun b p q => plusUnit_comm b p q⟩
    exact List.Perm.foldl_eq hperm b
  · intro b
    exact targetPlain_eq_resolve b

/-- Witness for C1 at a concrete permutation of two setter calls. -/
theorem C1_witness :
    applySettersInt (RelativeBuilder.ofDate 0)
        [(RUnit.years, 5), (RUnit.days, -2)] =
      applySettersInt (RelativeBuilder.ofDate 0)
        [(RUnit.days, -2), (RUnit.years, 5)] ∧
    (RelativeBuilder.ofDate 0).targetPlain =
      resolveTargetCalendar (RelativeBuilder.ofDate 0).anchorPlain
        (RelativeBuilder.ofDate 0).off :=
  ⟨C1_fixed_order_resolution.1 (RelativeBuilder.ofDate 0) _ _ (by decide),
   C1_fixed_order_resolution.2 (RelativeBuilder.ofDate 0)⟩

/-- Claim C10: a builder freshly constructed by fromDate has
milliseconds() equal to 0 and timestamp() equal to the anchor epoch
milliseconds: the UTC reinterpretation round-trips exactly. -/
theorem C10_fresh_builder_roundtrip (ms : Int) :
    (RelativeBuilder.ofDate ms).millisecondsGet = 0 ∧
    (RelativeBuilder.ofDate ms).timestamp = ms := by
  have h := ofDate_deltaMs ms
  unfold RelativeBuilder.millisecondsGet RelativeBuilder.timestamp
  rw [h]
  exact ⟨rfl, by unfold RelativeBuilder.ofDate; ring⟩

/-- Claim C6: every unit-setter call returns a new builder with the
anchor calendar value unchanged, the anchor epoch milliseconds
unchanged (for well-formed builders, preserving well-formedness), and
exactly one offsets field updated by the contribution of the call; the
argument builder itself is a value and is never mutated. -/
theorem C6_setter_persistence (b b2 : RelativeBuilder) (u : RUnit) (v : JSNum)
    (hok : b.applySetter u v = .ok b2) :
    b2.anchorPlain = b.anchorPlain ∧
    (b.WellFormed → b2.anchorMs = b.anchorMs ∧ b2.WellFormed) ∧
    ∀ f : OffUnit, offField b2.off f =
      offField b.off f + (if f = targetField u then contribOf u v.toIntVal else 0) := by
  obtain ⟨hsafe, hb2⟩ := applySetter_ok b u v b2 hok
  subst hb2
  refine ⟨rfl, ?_, fun f => offField_patch b.off u v.toIntVal f⟩
  intro hwf
  unfold RelativeBuilder.WellFormed at hwf
  have hms : (b.plusUnit u v.toIntVal).anchorMs = b.anchorMs := by
    unfold RelativeBuilder.plusUnit RelativeBuilder.ofPlain
    dsimp only
    rw [hwf, pdtToMs_msToPdt]
  refine ⟨hms, ?_⟩
  show (b.plusUnit u v.toIntVal).anchorPlain =
    msToPdt (b.plusUnit u v.toIntVal).anchorMs
  show b.anchorPlain = msToPdt (pdtToMs b.anchorPlain)
  rw [hwf, pdtToMs_msToPdt]

/-- Witness for C6 at a concrete builder and setter call. -/
theorem C6_witness :
    ((RelativeBuilder.ofDate 1612051200000).plusUnit RUnit.days 3).anchorPlain =
        (RelativeBuilder.ofDate 1612051200000).anchorPlain ∧
    ((RelativeBuilder.ofDate 1612051200000).WellFormed →
      ((RelativeBuilder.ofDate 1612051200000).plusUnit RUnit.days 3).anchorMs =
          (RelativeBuilder.ofDate 1612051200000).anchorMs ∧
      ((RelativeBuilder.ofDate 1612051200000).plusUnit RUnit.days 3).WellFormed) ∧
    ∀ f : OffUnit,
      offField ((RelativeBuilder.ofDate 1612051200000).plusUnit RUnit.days 3).off f =
        offField (RelativeBuilder.ofDate 1612051200000).off f +
          (if f = targetField RUnit.days
           then contribOf RUnit.days (JSNum.num (mkRat 3 1)).toIntVal else 0) :=
  C6_setter_persistence (RelativeBuilder.ofDate 1612051200000)
    ((RelativeBuilder.ofDate 1612051200000).plusUnit RUnit.days 3)
    RUnit.days (JSNum.num (mkRat 3 1)) (by decide)

/-- Witness for C2 at a concrete well-formed builder. -/
theorem C2_witness :
    ((RelativeBuilder.ofDate 1686830400000).plusUnit RUnit.days 5).monthsFraction =
      monthsSpec ((RelativeBuilder.ofDate 1686830400000).plusUnit RUnit.days 5) :=
  C2_months_fraction_follows_spec
    ((RelativeBuilder.ofDate 1686830400000).plusUnit RUnit.days 5) (by decide)

/-- Counterexample for C3: two years(2^53 - 1) calls, each individually
validated, accumulate a years offset of 2^54 - 2, which is outside the
safe-integer range, so the claimed invariant fails on an API-reachable
builder. -/
theorem C3_counterexample :
    (((RelativeBuilder.ofDate 0).applySetter RUnit.years
          (JSNum.num (mkRat 9007199254740991 1))).bind
        (fun b => b.applySetter RUnit.years
          (JSNum.num (mkRat 9007199254740991 1)))).map
      (fun b => b.off.years) = Except.ok 18014398509481982 ∧
    ¬ ((18014398509481982 : Int).natAbs ≤ 9007199254740991) := by
  constructor <;> decide

theorem applySettersChecked_bound (l : List (RUnit × JSNum)) :
    ∀ b0 b : RelativeBuilder, applySettersChecked b0 l = .ok b →
    ∀ f : OffUnit, (offField b.off f).natAbs ≤
      (offField b0.off f).natAbs + 7 * 9007199254740991 * l.length := by
  induction l with
  | nil =>
      intro b0 b hok f
      have hb : b0 = b := by
        simpa [applySettersChecked, pure, Except.pure] using hok
      subst hb
      simp
  | cons p rest ih =>
      intro b0 b hok f
      unfold applySettersChecked at hok
      cases hset : b0.applySetter p.1 p.2 with
      | error e =>
          rw [hset] at hok
          exact absurd hok (by simp [Bind.bind, Except.bind])
      | ok b1 =>
          rw [hset] at hok
          simp only [Bind.bind, Except.bind] at hok
          obtain ⟨hsafe, hb1⟩ := applySetter_ok b0 p.1 p.2 b1 hset
          have hval := toIntVal_natAbs_le p.2 hsafe
          have hcontrib : (contribOf p.1 p.2.toIntVal).natAbs ≤ 7 * 9007199254740991 := by
            cases p.1 <;> simp [contribOf, Int.natAbs_mul] <;> omega
          have hstep : (offField b1.off f).natAbs ≤
              (offField b0.off f).natAbs + 7 * 9007199254740991 := by
            rw [hb1]
            show (offField (b0.off.patch p.1 p.2.toIntVal) f).natAbs ≤ _
            rw [offField_patch]
            split_ifs
            · omega
            · omega
          have hrest := ih b1 b hok f
          simp only [List.length_cons]
          omega

/-- Corrected form of C3: offsets stay exact integers and every
accepted setter argument is a safe integer, but accumulation is not
re-validated, so after k setter calls a field is only bounded by
7 * (2^53 - 1) * k, not by 2^53 - 1. -/
theorem C3_offsets_accumulation_bound (ms : Int) (l : List (RUnit × JSNum))
    (b : RelativeBuilder)
    (hok : applySettersChecked (RelativeBuilder.ofDate ms) l = .ok b)
    (f : OffUnit) :
    (offField b.off f).natAbs ≤ 7 * 9007199254740991 * l.length := by
  have h := applySettersChecked_bound l (RelativeBuilder.ofDate ms) b hok f
  have h0 : offField (RelativeBuilder.ofDate ms).off f = 0 := by
    cases f <;> rfl
  rw [h0] at h
  simpa using h

set_option maxRecDepth 8192 in
/-- Witness for the corrected C3 bound at a concrete call list. -/
theorem C3_witness :
    (offField (((RelativeBuilder.ofDate 0).plusUnit RUnit.years 9007199254740991).plusUnit
        RUnit.years 9007199254740991).off OffUnit.years).natAbs ≤
      7 * 9007199254740991 *
        ([(RUnit.years, JSNum.num (mkRat 9007199254740991 1)),
          (RUnit.years, JSNum.num (mkRat 9007199254740991 1))] :
          List (RUnit × JSNum)).length :=
  C3_offsets_accumulation_bound 0
    [(RUnit.years, JSNum.num (mkRat 9007199254740991 1)),
     (RUnit.years, JSNum.num (mkRat 9007199254740991 1))]
    (((RelativeBuilder.ofDate 0).plusUnit RUnit.years 9007199254740991).plusUnit
        RUnit.years 9007199254740991)
    (by decide) OffUnit.years

set_option maxRecDepth 8192 in
/-- Claim C4: fromDate at the instant 2021-01-31T00:00:00Z (epoch ms
1612051200000) followed by months(1) resolves to the instant
2021-02-28T00:00:00.000Z (epoch ms 1614470400000): the calendar add
clamps to the end of February and never rolls over into March. -/
theorem C4_month_end_clamp :
    ((fromDate nullParse (DateInput.numIn (JSNum.num (mkRat 1612051200000 1)))).bind
        (fun b => b.applySetter RUnit.months (JSNum.num (mkRat 1 1)))).map
      RelativeBuilder.timestamp = Except.ok 1614470400000 ∧
    ((fromDate nullParse (DateInput.numIn (JSNum.num (mkRat 1612051200000 1)))).bind
        (fun b => b.applySetter RUnit.months (JSNum.num (mkRat 1 1)))).map
      RelativeBuilder.targetPlain =
      Except.ok { year := 2021, month := 2, day := 28, hour := 0, minute := 0,
                  second := 0, millisecond := 0 } := by
  constructor <;> decide

set_option maxRecDepth 8192 in
/-- Helper computation for C5: the builder anchored at 2020-02-29 with a
one-year offset, and its whole-month difference, evaluate concretely. -/
theorem c5_builder_eval :
    (fromDate nullParse (DateInput.numIn (JSNum.num (mkRat 1582934400000 1)))).bind
        (fun b => b.applySetter RUnit.years (JSNum.num (mkRat 1 1))) =
      Except.ok ((RelativeBuilder.ofDate 1582934400000).plusUnit RUnit.years 1) ∧
    untilMonths ((RelativeBuilder.ofDate 1582934400000).plusUnit RUnit.years 1).anchorPlain
        ((RelativeBuilder.ofDate 1582934400000).plusUnit RUnit.years 1).targetPlain =
      { years := 0, months := 12, days := 0, hours := 0, minutes := 0,
        seconds := 0, milliseconds := 0 } := by
  constructor <;> decide

/-- Claim C5: a leap-day anchor does not distort the fractional-year
getter: fromDate at 2020-02-29T00:00:00Z (epoch ms 1582934400000)
followed by years(1) has years() exactly 1 (hence within 1e-12 of 1),
and years() always returns months() / 12. -/
theorem C5_leap_year_fraction :
    ((fromDate nullParse (DateInput.numIn (JSNum.num (mkRat 1582934400000 1)))).bind
        (fun b => b.applySetter RUnit.years (JSNum.num (mkRat 1 1)))).map
      RelativeBuilder.yearsFraction = Except.ok 1 ∧
    ∀ b : RelativeBuilder, b.yearsFraction = b.monthsFraction / 12 := by
  refine ⟨?_, fun b => rfl⟩
  rw [c5_builder_eval.1]
  show Except.ok _ = _
  congr 1
  unfold RelativeBuilder.yearsFraction RelativeBuilder.monthsFraction
  dsimp only
  rw [c5_builder_eval.2]
  norm_num [jsOrTest, jsToInt32]
  rw [if_pos (show (((Int.lor 0 0).lor 0).lor 0).lor 0 = 0 by decide)]
  norm_num

/- ------------------------------------------------------------------ -/
/- Validation outcome lemmas                                          -/
/- ------------------------------------------------------------------ -/

theorem assertSafeInt_decimal (q : ℚ) (h : q.den ≠ 1) (c : String) :
    assertSafeInt (JSNum.num q) c =
      .error (c ++ ": value must be an integer (no decimals)") := by
  have h2 : (JSNum.num q).isInteger = false := by
    simp [JSNum.isInteger, h]
  simp [assertSafeInt, JSNum.isFinite, h2]

theorem assertSafeInt_nonfinite (w : JSNum) (hw : w.isFinite = false) (c : String) :
    assertSafeInt w c = .error (c ++ ": value must be a finite integer") := by
  simp [assertSafeInt, hw]

theorem assertSafeInt_outOfRange (k : Int) (hk : k.natAbs > 9007199254740991) (c : String) :
    assertSafeInt (JSNum.num (k : ℚ)) c =
      .error (c ++ ": value exceeds safe integer range") := by
  have h2 : (JSNum.num (k : ℚ)).isInteger = true := by
    simp [JSNum.isInteger, Rat.den_intCast]
  have h3 : (JSNum.num (k : ℚ)).isSafeInteger = false := by
    simp [JSNum.isSafeInteger, Rat.den_intCast, Rat.num_intCast]
    omega
  simp [assertSafeInt, JSNum.isFinite, h2, h3]

theorem assertSafeInt_int_ok (k : Int) (hk : k.natAbs ≤ 9007199254740991) (c : String) :
    assertSafeInt (JSNum.num (k : ℚ)) c = .ok () := by
  have h2 : (JSNum.num (k : ℚ)).isInteger = true := by
    simp [JSNum.isInteger, Rat.den_intCast]
  have h3 : (JSNum.num (k : ℚ)).isSafeInteger = true := by
    simp [JSNum.isSafeInteger, Rat.den_intCast, Rat.num_intCast]
    omega
  simp [assertSafeInt, JSNum.isFinite, h2, h3]

theorem assertFiniteNumber_finite_ok (q : ℚ)
    (h : (jsTrunc q).natAbs ≤ 9007199254740991) (c : String) :
    assertFiniteNumber (JSNum.num q) c = .ok () := by
  have h2 : (JSNum.num q).truncJS.isSafeInteger = true := by
    simp [JSNum.truncJS, JSNum.isSafeInteger, Rat.den_intCast, Rat.num_intCast, h]
  simp [assertFiniteNumber, JSNum.isFinite, h2]

/-- Claim C7: a finite non-integer value given to any relative-builder
unit setter fails with the decimal-specific message, while the same
value given to any fixed-builder unit setter succeeds (whenever its
truncation is in safe range, as is true of every non-integer double);
non-finite values and out-of-range integers fail on the relative
builder with their own distinct messages. -/
theorem C7_validation_messages (q : ℚ) (b : RelativeBuilder) (db : DurationBuilder)
    (u : RUnit) (du : DUnit) (w : JSNum) (k : Int)
    (hq : q.den ≠ 1) (hw : w.isFinite = false) (hk : k.natAbs > 9007199254740991) :
    b.applySetter u (JSNum.num q) =
      .error (runitName u ++ ": value must be an integer (no decimals)") ∧
    ((jsTrunc q).natAbs ≤ 9007199254740991 →
      db.applySetter du (JSNum.num q) = .ok ⟨db.total + q * msPerUnit du⟩) ∧
    b.applySetter u w =
      .error (runitName u ++ ": value must be a finite integer") ∧
    b.applySetter u (JSNum.num (k : ℚ)) =
      .error (runitName u ++ ": value exceeds safe integer range") := by
  refine ⟨?_, ?_, ?_, ?_⟩
  · unfold RelativeBuilder.applySetter
    rw [assertSafeInt_decimal q hq]
    rfl
  · intro ht
    unfold DurationBuilder.applySetter
    rw [assertFiniteNumber_finite_ok q ht]
    rfl
  · unfold RelativeBuilder.applySetter
    rw [assertSafeInt_nonfinite w hw]
    rfl
  · unfold RelativeBuilder.applySetter
    rw [assertSafeInt_outOfRange k hk]
    rfl

/-- Witness for C7 at the value 2.7 (and NaN, and 2^53) on the weeks
setters of both builders. -/
theorem C7_witness :
    (RelativeBuilder.ofDate 0).applySetter RUnit.weeks (JSNum.num (mkRat 27 10)) =
      .error (runitName RUnit.weeks ++ ": value must be an integer (no decimals)") ∧
    ((jsTrunc (mkRat 27 10)).natAbs ≤ 9007199254740991 →
      DurationBuilder.empty.applySetter DUnit.weeks (JSNum.num (mkRat 27 10)) =
        .ok ⟨DurationBuilder.empty.total + mkRat 27 10 * msPerUnit DUnit.weeks⟩) ∧
    (RelativeBuilder.ofDate 0).applySetter RUnit.weeks JSNum.nan =
      .error (runitName RUnit.weeks ++ ": value must be a finite integer") ∧
    (RelativeBuilder.ofDate 0).applySetter RUnit.weeks
        (JSNum.num ((9007199254740992 : Int) : ℚ)) =
      .error (runitName RUnit.weeks ++ ": value exceeds safe integer range") :=
  C7_validation_messages (mkRat 27 10) (RelativeBuilder.ofDate 0)
    DurationBuilder.empty RUnit.weeks DUnit.weeks JSNum.nan 9007199254740992
    (by decide) (by decide) (by decide)

/-- Claim C8: for one instant, fromDate applied to its epoch-millisecond
timestamp, to a string the platform parser resolves to it, and to a
Date object holding it produce the same builder, whose resolved
timestamp is that instant; any non-Date/number/string input fails with
the input-type message, and a string parsing to an invalid instant
fails with the invalid-date message. -/
theorem C8_fromDate_inputs (parse : String → Option Int) (s s2 : String) (t : Int)
    (hs : parse s = some t) (ht : t.natAbs ≤ 8640000000000000)
    (hs2 : parse s2 = none) :
    fromDate parse (DateInput.strIn s) = .ok (RelativeBuilder.ofDate t) ∧
    fromDate parse (DateInput.numIn (JSNum.num (t : ℚ))) =
      .ok (RelativeBuilder.ofDate t) ∧
    fromDate parse (DateInput.dateObj (some t)) = .ok (RelativeBuilder.ofDate t) ∧
    (RelativeBuilder.ofDate t).timestamp = t ∧
    fromDate parse (DateInput.strIn s2) = .error "fromDate: Invalid date input" ∧
    fromDate parse DateInput.other =
      .error "fromDate: Input must be a Date object, timestamp (number), or ISO date string" := by
  refine ⟨?_, ?_, rfl, ?_, ?_, rfl⟩
  · simp only [fromDate, hs]
  · simp only [fromDate]
    rw [assertSafeInt_int_ok t (by omega) "fromDate"]
    simp only [Bind.bind, Except.bind]
    have htv : (JSNum.num (t : ℚ)).toIntVal = t := by
      show jsTrunc ((t : ℚ)) = t
      rw [jsTrunc_int _ (Rat.den_intCast t), Rat.num_intCast]
    rw [htv, if_neg (by omega)]
  · have h := ofDate_deltaMs t
    unfold RelativeBuilder.timestamp
    rw [h]
    unfold RelativeBuilder.ofDate
    ring
  · simp only [fromDate, hs2]

/-- Witness for C8 with a concrete parser, ISO string and instant. -/
theorem C8_witness :
    fromDate
        (fun str => if str = "2023-01-01T00:00:00Z" then some 1672531200000 else none)
        (DateInput.strIn "2023-01-01T00:00:00Z") =
      .ok (RelativeBuilder.ofDate 1672531200000) ∧
    fromDate
        (fun str => if str = "2023-01-01T00:00:00Z" then some 1672531200000 else none)
        (DateInput.numIn (JSNum.num ((1672531200000 : Int) : ℚ))) =
      .ok (RelativeBuilder.ofDate 1672531200000) ∧
    fromDate
        (fun str => if str = "2023-01-01T00:00:00Z" then some 1672531200000 else none)
        (DateInput.dateObj (some 1672531200000)) =
      .ok (RelativeBuilder.ofDate 1672531200000) ∧
    (RelativeBuilder.ofDate 1672531200000).timestamp = 1672531200000 ∧
    fromDate
        (fun str => if str = "2023-01-01T00:00:00Z" then some 1672531200000 else none)
        (DateInput.strIn "invalid-date") = .error "fromDate: Invalid date input" ∧
    fromDate
        (fun str => if str = "2023-01-01T00:00:00Z" then some 1672531200000 else none)
        DateInput.other =
      .error "fromDate: Input must be a Date object, timestamp (number), or ISO date string" :=
  C8_fromDate_inputs
    (fun str => if str = "2023-01-01T00:00:00Z" then some 1672531200000 else none)
    "2023-01-01T00:00:00Z" "invalid-date" 1672531200000
    (by decide) (by decide) (by decide)

/-- Claim C9: with the fixed conversion factors (millisecond 1, second
1000, minute 60000, hour 3600000, day 86400000, week 604800000), for
every accepted finite n, weeks(n).days() equals n * 7 and
days(n).weeks() equals n / 7 exactly in the rational model. -/
theorem C9_week_day_conversions (n : ℚ)
    (h : (jsTrunc n).natAbs ≤ 9007199254740991) :
    (durationEntry DUnit.weeks (JSNum.num n)).map
        (fun b => b.getUnit DUnit.days) = Except.ok (n * 7) ∧
    (durationEntry DUnit.days (JSNum.num n)).map
        (fun b => b.getUnit DUnit.weeks) = Except.ok (n / 7) ∧
    msPerUnit DUnit.milliseconds = 1 ∧ msPerUnit DUnit.seconds = 1000 ∧
    msPerUnit DUnit.minutes = 60000 ∧ msPerUnit DUnit.hours = 3600000 ∧
    msPerUnit DUnit.days = 86400000 ∧ msPerUnit DUnit.weeks = 604800000 := by
  refine ⟨?_, ?_, rfl, rfl, rfl, rfl, rfl, rfl⟩
  · unfold durationEntry DurationBuilder.applySetter
    rw [assertFiniteNumber_finite_ok n h]
    simp only [Bind.bind, Except.bind, pure, Except.pure, Except.map]
    congr 1
    show ((0 : ℚ) + n * 604800000) / 86400000 = n * 7
    ring
  · unfold durationEntry DurationBuilder.applySetter
    rw [assertFiniteNumber_finite_ok n h]
    simp only [Bind.bind, Except.bind, pure, Except.pure, Except.map]
    congr 1
    show ((0 : ℚ) + n * 86400000) / 604800000 = n / 7
    ring

/-- Witness for C9 at the fractional value 5 / 2. -/
theorem C9_witness :
    (durationEntry DUnit.weeks (JSNum.num (mkRat 5 2))).map
        (fun b => b.getUnit DUnit.days) = Except.ok (mkRat 5 2 * 7) ∧
    (durationEntry DUnit.days (JSNum.num (mkRat 5 2))).map
        (fun b => b.getUnit DUnit.weeks) = Except.ok (mkRat 5 2 / 7) ∧
    msPerUnit DUnit.milliseconds = 1 ∧ msPerUnit DUnit.seconds = 1000 ∧
    msPerUnit DUnit.minutes = 60000 ∧ msPerUnit DUnit.hours = 3600000 ∧
    msPerUnit DUnit.days = 86400000 ∧ msPerUnit DUnit.weeks = 604800000 :=
  C9_week_day_conversions (mkRat 5 2) (by decide)
